import Mathlib

/-!
Shallow embedding of heyrian/express-minio-example: a minimal Express HTTP
facade over a MinIO (S3-compatible) object store.  The repository holds two
near-identical variants: `src/app.ts` and a second, unnamed variant.  Pure
data flow (config checks, the bucket-provisioning trace, the request
handlers) is embedded as Lean functions; the MinIO backend is modelled as an
explicit state (buckets plus an association list of objects), with the
backend assumed to faithfully store what `putObject` receives.
-/

namespace ExpressMinio

/-- Bytes of an object body; each entry is one octet. -/
abbrev Bytes := List Nat

/-- Model of the MinIO backend state: which buckets exist and, per
(bucket, key), the stored object bytes.  An association list, newest entry
first, since `putObject` prepends. -/
structure MinioState where
  buckets : List String
  objects : List (String × String × Bytes)
deriving Repr, DecidableEq

/-- `minioClient.bucketExists(name)`. -/
def bucketExists (st : MinioState) (bucket : String) : Bool :=
  st.buckets.contains bucket

/-- `minioClient.putObject(bucket, key, body)`, backend side: stores exactly
the received bytes under the key. -/
def putObject (st : MinioState) (bucket key : String) (body : Bytes) : MinioState :=
  { st with objects := (bucket, key, body) :: st.objects }

/-- Errors surfaced by the storage backend to a handler. -/
inductive StorageErr where
  | noSuchKey (bucket key : String)
  | writeError (msg : String)
deriving Repr, DecidableEq

/-- `minioClient.getObject(bucket, key)`: resolves with the stored bytes, or
rejects with `NoSuchKey` (MinIO's not-found error) when the key is absent
from the bucket. -/
def getObject (st : MinioState) (bucket key : String) : Except StorageErr Bytes :=
  match st.objects.find? (fun e => e.1 == bucket && e.2.1 == key) with
  | some e => .ok e.2.2
  | none => .error (.noSuchKey bucket key)

/-- `minioClient.listObjects(bucket)`: the names of the objects of the
bucket, in backend order. -/
def listObjects (st : MinioState) (bucket : String) : List String :=
  (st.objects.filter (fun e => e.1 == bucket)).map (fun e => e.2.1)

/-- Observable outcome of one Express request handler: a response the
handler wrote, or a promise rejection that escaped the handler.  The
handlers of both variants are async functions registered on Express 4 with
no try/catch, so a rejected `await` inside one ends the handler with an
unhandled rejection and no response written. -/
inductive HResult where
  | okBytes (status : Nat) (body : Bytes)
  | okText (status : Nat) (body : String)
  | uncaught (err : StorageErr)
deriving Repr, DecidableEq

/-- True when the handler ended with an escaped (unhandled) rejection. -/
def HResult.isUncaught : HResult → Bool
  | .uncaught _ => true
  | _ => false

/-- True when the handler wrote a response (of any status). -/
def HResult.isResponse : HResult → Bool
  | .okBytes _ _ => true
  | .okText _ _ => true
  | .uncaught _ => false

/-- The bucket name of the `src/app.ts` variant (line 10). -/
def bucketNameApp : String := "example-bucket"

/-- Success response text of POST /upload (src/app.ts line 112). -/
def uploadMsg (key : String) : String :=
  "Your file is now available at https://minio-demo.zeabur.app/objects/" ++ key ++ " !"

/-- The POST /upload route (src/app.ts lines 109-113): `key` is the value
produced by `crypto.randomUUID()`; `putVerdict` is the backend verdict on
the `putObject` call (`none` = resolves, `some e` = rejects with `e`).  On
success the request body is stored under `key` and the locator URL naming
`key` is returned; a rejection escapes the handler, which has no
try/catch. -/
def uploadHandler (bucket : String) (st : MinioState) (key : String) (body : Bytes)
    (putVerdict : Option String) : MinioState × HResult :=
  match putVerdict with
  | some e => (st, .uncaught (.writeError e))
  | none => (putObject st bucket key body, .okText 200 (uploadMsg key))

/-- The GET /objects/:objectName route (src/app.ts lines 115-119): awaits
`getObject` and pipes the resulting stream into the response; a rejection
escapes the handler, which has no try/catch. -/
def getObjectHandler (bucket : String) (st : MinioState) (objectName : String) : HResult :=
  match getObject st bucket objectName with
  | .ok bytes => .okBytes 200 bytes
  | .error e => .uncaught e

/-- The relevant part of the process environment (`process.env`), as read by
the two variants: `MINIO_HOST`, `MINIO_USERNAME`, `MINIO_PASSWORD`,
`MINIO_DEFAULT_BUCKET`.  `none` models an unset variable. -/
structure Env where
  minioHost : Option String
  minioUsername : Option String
  minioPassword : Option String
  minioDefaultBucket : Option String
deriving Repr, DecidableEq

/-- JavaScript truthiness of an optional string value, as tested by
`if (!x)`: `undefined` and the empty string are falsy, every other string is
truthy. -/
def truthy : Option String → Bool
  | none => false
  | some s => !(s == "")

/-- One statement of an S3 bucket policy, as built by both variants:
`Action`, `Effect`, `Principal.AWS`, `Resource`. -/
structure PolicyStatement where
  action : List String
  effect : String
  principalAWS : List String
  resource : List String
deriving Repr, DecidableEq

/-- An S3 bucket policy document: `Version`, optional `Id`, `Statement`. -/
structure BucketPolicy where
  version : String
  id : Option String
  statement : List PolicyStatement
deriving Repr, DecidableEq

/-- The `policyAllowAllRead` document of `src/app.ts` (lines 70-83). -/
def policyApp (bucket : String) : BucketPolicy :=
  { version := "2012-10-17"
    id := some "allow-all-read"
    statement := [
      { action := ["s3:GetObject"]
        effect := "Allow"
        principalAWS := ["*"]
        resource := ["arn:aws:s3:::" ++ bucket ++ "/*"] }] }

/-- The `policyAllowAllRead` document of the unnamed variant (lines 60-70);
identical to the app.ts one except that it carries no `Id`. -/
def policyUnnamed (bucket : String) : BucketPolicy :=
  { version := "2012-10-17"
    id := none
    statement := [
      { action := ["s3:GetObject"]
        effect := "Allow"
        principalAWS := ["*"]
        resource := ["arn:aws:s3:::" ++ bucket ++ "/*"] }] }

/-- The ARN of one object inside a bucket. -/
def objectArn (bucket key : String) : String :=
  "arn:aws:s3:::" ++ bucket ++ "/" ++ key

/-- S3 resource-pattern matching restricted to the shapes this program
uses: a pattern ending in `*` matches every ARN extending the part before
the `*`; otherwise the pattern matches only itself. -/
def s3PatternMatches (pat arn : String) : Prop :=
  (∃ pre, pat = pre ++ "*" ∧ ∃ rest, arn = pre ++ rest) ∨ pat = arn

/-- The policy grants principal `*` (anonymous) the action `act` on `arn`. -/
def grantsAnonymous (p : BucketPolicy) (act : String) (arn : String) : Prop :=
  ∃ s, s ∈ p.statement ∧ s.effect = "Allow" ∧ "*" ∈ s.principalAWS ∧
    act ∈ s.action ∧ ∃ r, r ∈ s.resource ∧ s3PatternMatches r arn

/-- The policy grants principal `*` the action `act` on some resource. -/
def grantsAnonymousSome (p : BucketPolicy) (act : String) : Prop :=
  ∃ s, s ∈ p.statement ∧ s.effect = "Allow" ∧ "*" ∈ s.principalAWS ∧ act ∈ s.action

/-- One call issued against the MinIO client during bootstrap. -/
inductive MinioCall where
  | listBuckets
  | bucketExistsQ (bucket : String)
  | makeBucket (bucket : String)
  | setBucketPolicy (bucket : String) (policy : BucketPolicy)
deriving Repr, DecidableEq

/-- The bucket this call targets (`none` for `listBuckets`). -/
def MinioCall.target : MinioCall → Option String
  | .listBuckets => none
  | .bucketExistsQ b => some b
  | .makeBucket b => some b
  | .setBucketPolicy b _ => some b

/-- True for `makeBucket` calls. -/
def MinioCall.isMakeBucket : MinioCall → Bool
  | .makeBucket _ => true
  | _ => false

/-- True for `setBucketPolicy` calls. -/
def MinioCall.isSetPolicy : MinioCall → Bool
  | .setBucketPolicy _ _ => true
  | _ => false

/-- The bucket-provisioning block shared by both inits (src/app.ts lines
62-88, unnamed variant lines 51-75): check whether the bucket exists; if
not, create it and set the given all-read policy; if it does, do nothing
more.  Returns the trace of client calls and the resulting backend state. -/
def bucketPhase (pol : String → BucketPolicy) (bucket : String) (st : MinioState) :
    List MinioCall × MinioState :=
  if bucketExists st bucket then
    ([.bucketExistsQ bucket], st)
  else
    ([.bucketExistsQ bucket, .makeBucket bucket, .setBucketPolicy bucket (pol bucket)],
      { st with buckets := bucket :: st.buckets })

/-- The MinIO client configuration (`new minio.Client({...})`). -/
structure ClientConfig where
  endPoint : String
  port : Nat
  accessKey : String
  secretKey : String
  useSSL : Bool
deriving Repr, DecidableEq

/-- Result of the `src/app.ts` `init` (lines 14-89): either
`process.exit(code)` after logging `msg`, or completion with the client
configuration, the trace of client calls, and the backend state.  The
client is constructed (line 59) only on the `done` path: every `exit`
happens before construction. -/
inductive InitAppResult where
  | exit (code : Nat) (msg : String)
  | done (cfg : ClientConfig) (calls : List MinioCall) (st : MinioState)
deriving Repr, DecidableEq

/-- The console message printed before each `process.exit(1)` in
src/app.ts, by the setting it reports missing. -/
def msgEndpointNotSet : String := "STORAGE_ENDPOINT is not set. Did you deploy a MinIO service?"

/-- Message for the (unreachable) missing-port exit of src/app.ts. -/
def msgPortNotSet : String := "STORAGE_PORT is not set. Did you deploy a MinIO service?"

/-- Message for the missing-access-key exit of src/app.ts. -/
def msgUserNotSet : String := "STORAGE_USER is not set. Did you deploy a MinIO service?"

/-- Message for the missing-secret-key exit of src/app.ts. -/
def msgPasswordNotSet : String := "STORAGE_PASSWORD is not set. Did you deploy a MinIO service?"

/-- Message for the TLS-flag exit of src/app.ts (lines 49-54). -/
def msgSslNotSet : String := "STORAGE_USE_SSL is not set. Did you deploy a MinIO service?"

/-- `init` of `src/app.ts` (lines 14-89), step by step: check
`process.env.MINIO_HOST`; check the local constant `portStr = '9000'`
(always truthy); check `MINIO_USERNAME`; check `MINIO_PASSWORD`; then
`const useSSLStr = undefined` followed by `if (useSSLStr === undefined)
process.exit(1)` — a comparison of a hard-coded `undefined`, which always
holds.  Only past all five checks would the client be constructed and the
bucket phase run. -/
def initApp (env : Env) (st : MinioState) : InitAppResult :=
  if !truthy env.minioHost then .exit 1 msgEndpointNotSet
  else if !truthy (some "9000") then .exit 1 msgPortNotSet
  else if !truthy env.minioUsername then .exit 1 msgUserNotSet
  else if !truthy env.minioPassword then .exit 1 msgPasswordNotSet
  else if (none : Option String) = none then .exit 1 msgSslNotSet
  else
    let cfg : ClientConfig :=
      { endPoint := env.minioHost.getD ""
        port := 9000
        accessKey := env.minioUsername.getD ""
        secretKey := env.minioPassword.getD ""
        useSSL := ((none : Option String) == some "true") }
    let bp := bucketPhase policyApp bucketNameApp st
    .done cfg bp.1 bp.2

/-- Observable outcome of `main` (src/app.ts lines 151-158): either the
process terminated before `app.listen` ran, or the HTTP listener started. -/
inductive MainOutcome where
  | exitedBeforeListen (code : Nat)
  | listening
deriving Repr, DecidableEq

/-- `main` of `src/app.ts`: awaits `init`, then calls `app.listen`.
`process.exit(code)` inside `init` terminates the process, so `listen` runs
only when `init` completes. -/
def mainApp (env : Env) (st : MinioState) : MainOutcome :=
  match initApp env st with
  | .exit code _ => .exitedBeforeListen code
  | .done _ _ _ => .listening

/-- A JavaScript template literal over one optional value, as in
`` `${process.env.MINIO_DEFAULT_BUCKET}` ``: an unset variable
(`undefined`) renders as the literal string "undefined". -/
def templateOfOption : Option String → String
  | none => "undefined"
  | some s => s

/-- `bucketName` of the unnamed variant (line 10). -/
def bucketNameUnnamed (env : Env) : String :=
  templateOfOption env.minioDefaultBucket

/-- Error message thrown by the unnamed `init` when `MINIO_HOST` is unset. -/
def msgHostMissingU : String := "MINIO_HOST 未設置。您是否部署了 MinIO 服務？"

/-- Error message thrown when `MINIO_USERNAME` is unset. -/
def msgUserMissingU : String := "MINIO_USERNAME 未設置。您是否部署了 MinIO 服務？"

/-- Error message thrown when `MINIO_PASSWORD` is unset. -/
def msgPasswordMissingU : String := "MINIO_PASSWORD 未設置。您是否部署了 MinIO 服務？"

/-- The client configuration built by the unnamed `init` (lines 38-44):
port hard-coded to 9000, `useSSL` hard-coded to `false`. -/
def cfgUnnamed (env : Env) : ClientConfig :=
  { endPoint := env.minioHost.getD ""
    port := 9000
    accessKey := env.minioUsername.getD ""
    secretKey := env.minioPassword.getD ""
    useSSL := false }

/-- `init` of the unnamed variant (lines 14-80): check `MINIO_HOST`,
`MINIO_USERNAME`, `MINIO_PASSWORD`, throwing an `Error` naming the unset
variable; construct the client; `listBuckets()` as a connectivity test;
then the bucket phase on `bucketName`.  The surrounding try/catch logs and
rethrows, so a thrown error still propagates out of `init`.  The client is
constructed only after all three checks pass. -/
def initUnnamed (env : Env) (st : MinioState) :
    Except String (ClientConfig × List MinioCall × MinioState) :=
  if !truthy env.minioHost then .error msgHostMissingU
  else if !truthy env.minioUsername then .error msgUserMissingU
  else if !truthy env.minioPassword then .error msgPasswordMissingU
  else
    let bp := bucketPhase policyUnnamed (bucketNameUnnamed env) st
    .ok (cfgUnnamed env, .listBuckets :: bp.1, bp.2)

/-- `main` of the unnamed variant (lines 142-147): `await init()` with no
catch, then `app.listen`.  A rejection of `init` is an unhandled promise
rejection, which terminates the Node.js process with exit code 1 before
`listen` runs (modelled from Node.js runtime semantics, Node 15+). -/
def mainUnnamed (env : Env) (st : MinioState) : MainOutcome :=
  match initUnnamed env st with
  | .error _ => .exitedBeforeListen 1
  | .ok _ => .listening

/-- One list item of the GET /objects page (src/app.ts line 138): a link to
the fetch endpoint `/objects/{name}`, labelled with the name. -/
def renderListItem (name : String) : String :=
  "<li><a href=\"/objects/" ++ name ++ "\">" ++ name ++ "</a></li>"

/-- The HTML the GET /objects handler writes before the items
(src/app.ts lines 129-137). -/
def listPagePre : String :=
  "\n    <html lang=\"en-US\">\n      <head>\n        <title>Express MinIO example</title>\n      </head>\n      <body>\n        <h1>Express MinIO example</h1>\n        <p>Here are the files you uploaded:</p>\n        <ul>\n          "

/-- The HTML the GET /objects handler writes after the items
(src/app.ts lines 139-142). -/
def listPagePost : String :=
  "\n        </ul>\n      </body>\n    </html>\n    "

/-- Concatenation of rendered items, as in `.join('')`. -/
def concatAll : List String → String
  | [] => ""
  | s :: rest => s ++ concatAll rest

/-- The full GET /objects page for a list of object names. -/
def renderListing (names : List String) : String :=
  listPagePre ++ concatAll (names.map renderListItem) ++ listPagePost

/-- One run of the one-shot listing stream: `data` events for every item
then `end`, or `data` events for a prefix of the items then `error`. -/
inductive StreamRun where
  | complete (items : List String)
  | errored (partItems : List String) (err : String)
deriving Repr

/-- The GET /objects route (src/app.ts lines 121-149): on `end`, a 200
text/html page rendering each collected object name as a link to
`/objects/{name}`; on `error`, a 500 response. -/
def listHandler : StreamRun → HResult
  | .complete items => .okText 200 (renderListing items)
  | .errored _ _ => .okText 500 "Something went wrong!"

/-- The lowercase hex character of a value below 16: values below ten map
into the digit block starting at code point 48, the rest into the lowercase
letter block so that ten maps to code point 97. -/
def hexDigit (n : Nat) : Char :=
  if n < 10 then Char.ofNat (48 + n) else Char.ofNat (87 + n)

/-- The value of a hex character, inverting `hexDigit`. -/
def hexVal (c : Char) : Nat :=
  if c.toNat < 97 then c.toNat - 48 else c.toNat - 87

/-- The two hex characters of one byte. -/
def byteHex (b : Nat) : List Char := [hexDigit (b / 16), hexDigit (b % 16)]

/-- Hex characters of a byte sequence. -/
def bytesHex : List Nat → List Char
  | [] => []
  | b :: rest => byteHex b ++ bytesHex rest

/-- Decode hex characters back to bytes, two characters per byte. -/
def decodeHexPairs : List Char → List Nat
  | c1 :: c2 :: rest => (hexVal c1 * 16 + hexVal c2) :: decodeHexPairs rest
  | _ => []

/-- RFC 4122 section 4.4 masking of byte `i` of the random draw: byte 6
keeps only its low nibble under version 0x4, byte 8 keeps only its low six
bits under variant 0b10; every other byte passes through. -/
def uuidMask (i b : Nat) : Nat :=
  if i = 6 then b % 16 + 64 else if i = 8 then b % 64 + 128 else b

/-- Apply `uuidMask` positionally, starting at index `i`. -/
def applyMask : Nat → List Nat → List Nat
  | _, [] => []
  | i, b :: rest => uuidMask i b :: applyMask (i + 1) rest

/-- The byte content of the UUID built from 16 random bytes.  Modelled from
the documented contract of Node's `crypto.randomUUID()` (an RFC 4122
version 4 UUID over 16 random bytes); the generator itself is external
library code called at src/app.ts line 110. -/
def uuidSetVersion (r : List Nat) : List Nat := applyMask 0 r

/-- Canonical 8-4-4-4-12 grouping of the 32 hex characters. -/
def withDashes (cs : List Char) : List Char :=
  cs.take 8 ++ '-' ::
    ((cs.drop 8).take 4 ++ '-' ::
      (((cs.drop 8).drop 4).take 4 ++ '-' ::
        ((((cs.drop 8).drop 4).drop 4).take 4 ++ '-' ::
          (((cs.drop 8).drop 4).drop 4).drop 4)))

/-- Remove the dashes again. -/
def stripDashes (cs : List Char) : List Char := cs.filter (fun c => c != '-')

/-- The UUID string `crypto.randomUUID()` renders from the 16 random
bytes. -/
def uuidString (r : List Nat) : String := ⟨withDashes (bytesHex (uuidSetVersion r))⟩

/-- POST /upload with the key exactly as generated at line 110:
`crypto.randomUUID()` over the random draw `seed`, then the handler. -/
def uploadRandom (bucket : String) (st : MinioState) (seed : List Nat) (body : Bytes) :
    MinioState × HResult :=
  uploadHandler bucket st (uuidString seed) body none

/-- C2: in the `src/app.ts` variant, for every environment and every backend
state, `init` reaches `process.exit(1)` before the HTTP listener starts, so
the server never begins accepting connections; when the host, username and
password are all set, the exit is the TLS-flag check, whose hard-coded
`undefined` comparison always holds. -/
theorem initApp_always_exits (env : Env) (st : MinioState) :
    (∃ msg, initApp env st = .exit 1 msg) ∧
    mainApp env st = .exitedBeforeListen 1 ∧
    (truthy env.minioHost → truthy env.minioUsername → truthy env.minioPassword →
      initApp env st = .exit 1 msgSslNotSet) := by
  have hinit : ∃ msg, initApp env st = .exit 1 msg := by
    unfold initApp
    cases truthy env.minioHost <;> cases truthy env.minioUsername <;>
      cases truthy env.minioPassword <;> exact ⟨_, rfl⟩
  refine ⟨hinit, ?_, ?_⟩
  · obtain ⟨msg, hm⟩ := hinit
    unfold mainApp
    rw [hm]
  · intro ht hu hp
    unfold initApp
    rw [ht, hu, hp]
    simp [truthy]

/-- Closed instance of `initApp_always_exits` at a fully populated
environment. -/
theorem initApp_always_exits_witness :
    initApp ⟨some "h", some "u", some "p", none⟩ ⟨[], []⟩ = .exit 1 msgSslNotSet :=
  (initApp_always_exits ⟨some "h", some "u", some "p", none⟩ ⟨[], []⟩).2.2
    (by decide) (by decide) (by decide)

/-- C1: for every byte sequence uploaded via POST /upload, fetching
GET /objects/{key} with the key named in that upload's response returns the
identical byte sequence (same length, same order), assuming the backend
faithfully stores what `putObject` receives. -/
theorem upload_then_get_roundtrip (st : MinioState) (key : String) (body : Bytes) :
    (uploadHandler bucketNameApp st key body none).2 = .okText 200 (uploadMsg key) ∧
    getObjectHandler bucketNameApp (uploadHandler bucketNameApp st key body none).1 key
      = .okBytes 200 body := by
  refine ⟨rfl, ?_⟩
  simp [uploadHandler, getObjectHandler, getObject, putObject, List.find?]

/-- Helper: `initApp` ends in `process.exit(1)` on every input. -/
theorem initApp_exit_one (env : Env) (st : MinioState) :
    ∃ msg, initApp env st = .exit 1 msg := by
  unfold initApp
  cases truthy env.minioHost <;> cases truthy env.minioUsername <;>
    cases truthy env.minioPassword <;> exact ⟨_, rfl⟩

/-- Helper: the unnamed `init` throws when a required setting is falsy. -/
theorem initUnnamed_error_of_missing (env : Env) (st : MinioState)
    (h : truthy env.minioHost = false ∨ truthy env.minioUsername = false ∨
      truthy env.minioPassword = false) :
    ∃ m, initUnnamed env st = .error m := by
  rcases h with h | h | h <;>
    cases hh : truthy env.minioHost <;>
      cases hu : truthy env.minioUsername <;>
        simp_all [initUnnamed]

/-- C4: for every startup configuration with `host`, `accessKey` or
`secretKey` missing or empty, both variants fail the configuration check
with the error naming that setting, the process ends with a non-zero exit
before the listener starts, and no storage client is constructed before
that exit (`initApp` never reaches `done`, `initUnnamed` never resolves). -/
theorem init_missing_config_fails (env : Env) (st : MinioState) :
    (truthy env.minioHost = false →
      initApp env st = .exit 1 msgEndpointNotSet ∧
      initUnnamed env st = .error msgHostMissingU) ∧
    (truthy env.minioHost = true → truthy env.minioUsername = false →
      initApp env st = .exit 1 msgUserNotSet ∧
      initUnnamed env st = .error msgUserMissingU) ∧
    (truthy env.minioHost = true → truthy env.minioUsername = true →
      truthy env.minioPassword = false →
      initApp env st = .exit 1 msgPasswordNotSet ∧
      initUnnamed env st = .error msgPasswordMissingU) ∧
    ((truthy env.minioHost = false ∨ truthy env.minioUsername = false ∨
        truthy env.minioPassword = false) →
      mainApp env st = .exitedBeforeListen 1 ∧
      mainUnnamed env st = .exitedBeforeListen 1 ∧
      (∀ cfg calls st2, initApp env st ≠ .done cfg calls st2) ∧
      (∀ out, initUnnamed env st ≠ .ok out)) := by
  refine ⟨?_, ?_, ?_, ?_⟩
  · intro hh
    constructor <;> simp [initApp, initUnnamed, hh]
  · intro hh hu
    constructor <;>
      simp [initApp, initUnnamed, hh, hu, show truthy (some "9000") = true by decide]
  · intro hh hu hp
    constructor <;>
      simp [initApp, initUnnamed, hh, hu, hp, show truthy (some "9000") = true by decide]
  · intro hmiss
    obtain ⟨msgA, hA⟩ := initApp_exit_one env st
    obtain ⟨msgU, hU⟩ := initUnnamed_error_of_missing env st hmiss
    refine ⟨?_, ?_, ?_, ?_⟩
    · unfold mainApp
      rw [hA]
    · unfold mainUnnamed
      rw [hU]
    · intro cfg calls st2
      rw [hA]
      exact fun hcon => InitAppResult.noConfusion hcon
    · intro out
      rw [hU]
      exact fun hcon => Except.noConfusion hcon

/-- Closed instance of `init_missing_config_fails`: unset `MINIO_HOST`. -/
theorem init_missing_config_fails_witness :
    initApp ⟨none, some "u", some "p", none⟩ ⟨[], []⟩ = .exit 1 msgEndpointNotSet ∧
    initUnnamed ⟨none, some "u", some "p", none⟩ ⟨[], []⟩ = .error msgHostMissingU :=
  (init_missing_config_fails ⟨none, some "u", some "p", none⟩ ⟨[], []⟩).1 rfl

/-- Helper: a policy whose single statement allows `s3:GetObject` to `*` on
`arn:aws:s3:::bucket/*` grants anonymous read of every object of the
bucket. -/
theorem grants_read_of_stmt (p : BucketPolicy) (bucket key : String)
    (hstmt : p.statement =
      [⟨["s3:GetObject"], "Allow", ["*"], ["arn:aws:s3:::" ++ bucket ++ "/*"]⟩]) :
    grantsAnonymous p "s3:GetObject" (objectArn bucket key) := by
  refine ⟨⟨["s3:GetObject"], "Allow", ["*"], ["arn:aws:s3:::" ++ bucket ++ "/*"]⟩,
    ?_, rfl, List.mem_singleton_self _, List.mem_singleton_self _, ?_⟩
  · rw [hstmt]
    exact List.mem_singleton_self _
  · refine ⟨"arn:aws:s3:::" ++ bucket ++ "/*", List.mem_singleton_self _, ?_⟩
    left
    refine ⟨"arn:aws:s3:::" ++ bucket ++ "/", ?_, key, rfl⟩
    have h1 : ("/" : String) ++ "*" = "/*" := by decide
    rw [← h1, ← String.append_assoc]

/-- Helper: the same single-statement policy grants no other action to
anonymous principals. -/
theorem no_anon_nonread (p : BucketPolicy) (bucket act : String)
    (hstmt : p.statement =
      [⟨["s3:GetObject"], "Allow", ["*"], ["arn:aws:s3:::" ++ bucket ++ "/*"]⟩])
    (hact : act ≠ "s3:GetObject") :
    ¬ grantsAnonymousSome p act := by
  rintro ⟨s, hs, heff, hpr, ha⟩
  rw [hstmt, List.mem_singleton] at hs
  subst hs
  simp at ha
  exact hact ha

/-- C5: with a valid environment and the target bucket absent, the unnamed
variant's `init` creates the bucket and then issues exactly one
`setBucketPolicy` call, whose document grants anonymous principals
`s3:GetObject` on every object under the bucket and grants them no write or
delete action; the policy block of `src/app.ts` (lines 64-88) behaves the
same way with its `policyApp` document. -/
theorem init_creates_bucket_and_policy (env : Env) (st : MinioState) (key : String)
    (hh : truthy env.minioHost = true) (hu : truthy env.minioUsername = true)
    (hp : truthy env.minioPassword = true)
    (habs : bucketExists st (bucketNameUnnamed env) = false) :
    initUnnamed env st =
      .ok (cfgUnnamed env,
        [.listBuckets, .bucketExistsQ (bucketNameUnnamed env),
          .makeBucket (bucketNameUnnamed env),
          .setBucketPolicy (bucketNameUnnamed env) (policyUnnamed (bucketNameUnnamed env))],
        { st with buckets := bucketNameUnnamed env :: st.buckets }) ∧
    ([MinioCall.listBuckets, .bucketExistsQ (bucketNameUnnamed env),
      .makeBucket (bucketNameUnnamed env),
      .setBucketPolicy (bucketNameUnnamed env)
        (policyUnnamed (bucketNameUnnamed env))].countP MinioCall.isSetPolicy = 1) ∧
    ([MinioCall.listBuckets, .bucketExistsQ (bucketNameUnnamed env),
      .makeBucket (bucketNameUnnamed env),
      .setBucketPolicy (bucketNameUnnamed env)
        (policyUnnamed (bucketNameUnnamed env))].countP MinioCall.isMakeBucket = 1) ∧
    grantsAnonymous (policyUnnamed (bucketNameUnnamed env)) "s3:GetObject"
      (objectArn (bucketNameUnnamed env) key) ∧
    ¬ grantsAnonymousSome (policyUnnamed (bucketNameUnnamed env)) "s3:PutObject" ∧
    ¬ grantsAnonymousSome (policyUnnamed (bucketNameUnnamed env)) "s3:DeleteObject" ∧
    grantsAnonymous (policyApp bucketNameApp) "s3:GetObject"
      (objectArn bucketNameApp key) ∧
    ¬ grantsAnonymousSome (policyApp bucketNameApp) "s3:PutObject" ∧
    ¬ grantsAnonymousSome (policyApp bucketNameApp) "s3:DeleteObject" ∧
    (∀ b st2, bucketExists st2 b = false →
      bucketPhase policyApp b st2 =
        ([.bucketExistsQ b, .makeBucket b, .setBucketPolicy b (policyApp b)],
          { st2 with buckets := b :: st2.buckets })) := by
  refine ⟨?_, rfl, rfl, grants_read_of_stmt _ _ _ rfl,
    no_anon_nonread _ _ _ rfl (by decide), no_anon_nonread _ _ _ rfl (by decide),
    grants_read_of_stmt _ _ _ rfl,
    no_anon_nonread _ _ _ rfl (by decide), no_anon_nonread _ _ _ rfl (by decide), ?_⟩
  · simp [initUnnamed, hh, hu, hp, bucketPhase, habs]
  · intro b st2 hb2
    simp [bucketPhase, hb2]

/-- Closed instance of `init_creates_bucket_and_policy`: empty backend,
bucket `b` configured. -/
theorem init_creates_bucket_and_policy_witness :
    initUnnamed ⟨some "h", some "u", some "p", some "b"⟩ ⟨[], []⟩ =
      .ok (cfgUnnamed ⟨some "h", some "u", some "p", some "b"⟩,
        [.listBuckets, .bucketExistsQ "b", .makeBucket "b",
          .setBucketPolicy "b" (policyUnnamed "b")],
        { buckets := ["b"], objects := [] }) :=
  (init_creates_bucket_and_policy ⟨some "h", some "u", some "p", some "b"⟩
    ⟨[], []⟩ "k" (by decide) (by decide) (by decide) (by decide)).1

/-- C6: with a valid environment and the target bucket already present, the
unnamed variant's `init` issues no `makeBucket` and no `setBucketPolicy`
call and leaves the backend state (hence the existing bucket policy)
unchanged; the bucket block of `src/app.ts` (lines 64-88) likewise issues
only the existence check. -/
theorem init_existing_bucket_untouched (env : Env) (st : MinioState)
    (hh : truthy env.minioHost = true) (hu : truthy env.minioUsername = true)
    (hp : truthy env.minioPassword = true)
    (hex : bucketExists st (bucketNameUnnamed env) = true) :
    initUnnamed env st =
      .ok (cfgUnnamed env, [.listBuckets, .bucketExistsQ (bucketNameUnnamed env)], st) ∧
    ([MinioCall.listBuckets,
      .bucketExistsQ (bucketNameUnnamed env)].countP MinioCall.isSetPolicy = 0) ∧
    ([MinioCall.listBuckets,
      .bucketExistsQ (bucketNameUnnamed env)].countP MinioCall.isMakeBucket = 0) ∧
    (∀ b st2, bucketExists st2 b = true → bucketPhase policyApp b st2 = ([.bucketExistsQ b], st2)) := by
  refine ⟨?_, rfl, rfl, ?_⟩
  · simp [initUnnamed, hh, hu, hp, bucketPhase, hex]
  · intro b st2 hb2
    simp [bucketPhase, hb2]

/-- Closed instance of `init_existing_bucket_untouched`: bucket `b` already
present. -/
theorem init_existing_bucket_untouched_witness :
    initUnnamed ⟨some "h", some "u", some "p", some "b"⟩ ⟨["b"], []⟩ =
      .ok (cfgUnnamed ⟨some "h", some "u", some "p", some "b"⟩,
        [.listBuckets, .bucketExistsQ "b"], ⟨["b"], []⟩) :=
  (init_existing_bucket_untouched ⟨some "h", some "u", some "p", some "b"⟩
    ⟨["b"], []⟩ (by decide) (by decide) (by decide) (by decide)).1

/-- C10: in the unnamed variant, when `MINIO_DEFAULT_BUCKET` is unset the
template literal makes `bucketName` the string "undefined"; with the other
settings valid, `init` proceeds without any configuration error, every
bucket-targeting bootstrap call targets the bucket literally named
"undefined", and the upload, fetch and list operations all address that
same bucket. -/
theorem unset_default_bucket_is_undefined (env : Env) (st : MinioState)
    (key : String) (body : Bytes)
    (hb : env.minioDefaultBucket = none)
    (hh : truthy env.minioHost = true) (hu : truthy env.minioUsername = true)
    (hp : truthy env.minioPassword = true) :
    bucketNameUnnamed env = "undefined" ∧
    (∃ out, initUnnamed env st = .ok out) ∧
    (∀ c ∈ MinioCall.listBuckets ::
        (bucketPhase policyUnnamed (bucketNameUnnamed env) st).1,
      c.target = none ∨ c.target = some "undefined") ∧
    (uploadHandler (bucketNameUnnamed env) st key body none).1.objects.head?
      = some ("undefined", key, body) ∧
    getObjectHandler (bucketNameUnnamed env) st key = getObjectHandler "undefined" st key ∧
    listObjects st (bucketNameUnnamed env) = listObjects st "undefined" := by
  have hbn : bucketNameUnnamed env = "undefined" := by
    simp [bucketNameUnnamed, templateOfOption, hb]
  have hok : ∃ out, initUnnamed env st = Except.ok out :=
    ⟨(cfgUnnamed env, MinioCall.listBuckets ::
        (bucketPhase policyUnnamed (bucketNameUnnamed env) st).1,
      (bucketPhase policyUnnamed (bucketNameUnnamed env) st).2),
      by simp [initUnnamed, hh, hu, hp]⟩
  refine ⟨hbn, hok, ?_, ?_, by rw [hbn], by rw [hbn]⟩
  · intro c hc
    rw [hbn] at hc
    unfold bucketPhase at hc
    cases hbe : bucketExists st "undefined" <;> simp [hbe] at hc <;>
      rcases hc with rfl | rfl | rfl | rfl <;> simp [MinioCall.target]
  · rw [hbn]
    rfl

/-- Closed instance of `unset_default_bucket_is_undefined`. -/
theorem unset_default_bucket_is_undefined_witness :
    bucketNameUnnamed ⟨some "h", some "u", some "p", none⟩ = "undefined" :=
  (unset_default_bucket_is_undefined ⟨some "h", some "u", some "p", none⟩
    ⟨[], []⟩ "k" [7] rfl (by decide) (by decide) (by decide)).1

/-- Helper: a key not listed in the bucket has no stored entry. -/
theorem find_none_of_not_listed (st : MinioState) (bucket key : String)
    (habs : key ∉ listObjects st bucket) :
    st.objects.find? (fun e => e.1 == bucket && e.2.1 == key) = none := by
  cases hf : st.objects.find? (fun e => e.1 == bucket && e.2.1 == key) with
  | none => rfl
  | some e =>
    exfalso
    apply habs
    have hmem := List.mem_of_find?_eq_some hf
    have hpe := List.find?_some hf
    simp only [Bool.and_eq_true, beq_iff_eq] at hpe
    unfold listObjects
    refine List.mem_map.mpr ⟨e, List.mem_filter.mpr ⟨hmem, ?_⟩, hpe.2⟩
    simp [hpe.1]

/-- C3 counterexample: on an empty backend, GET /objects/missing ends with
an escaped rejection and writes no response at all, hence no
404-equivalent. -/
theorem getObject_missing_uncaught_cex :
    getObjectHandler bucketNameApp ⟨[], []⟩ "missing"
      = .uncaught (.noSuchKey bucketNameApp "missing") ∧
    (getObjectHandler bucketNameApp ⟨[], []⟩ "missing").isResponse = false :=
  ⟨rfl, rfl⟩

/-- C3 amended: for every key absent from the bucket, the backend rejects
with its not-found error (NoSuchKey), but the handler has no try/catch, so
the rejection escapes the handler as an unhandled fault and no response,
404-equivalent or otherwise, is written. -/
theorem getObject_missing_key_rejection_escapes (bucket : String) (st : MinioState)
    (key : String) (habs : key ∉ listObjects st bucket) :
    getObject st bucket key = .error (.noSuchKey bucket key) ∧
    getObjectHandler bucket st key = .uncaught (.noSuchKey bucket key) := by
  have hfind := find_none_of_not_listed st bucket key habs
  unfold getObjectHandler getObject
  rw [hfind]
  exact ⟨rfl, rfl⟩

/-- Closed instance of `getObject_missing_key_rejection_escapes`. -/
theorem getObject_missing_key_rejection_escapes_witness :
    getObject ⟨[], []⟩ bucketNameApp "k" = .error (.noSuchKey bucketNameApp "k") ∧
    getObjectHandler bucketNameApp ⟨[], []⟩ "k" = .uncaught (.noSuchKey bucketNameApp "k") :=
  getObject_missing_key_rejection_escapes bucketNameApp ⟨[], []⟩ "k" (by decide)

/-- C7 counterexample: a failing backend put ends the upload handler with an
escaped rejection; no server-error response is written to the caller. -/
theorem upload_put_failure_uncaught_cex :
    (uploadHandler bucketNameApp ⟨[], []⟩ "k" [104, 105] (some "connection reset")).2
      = .uncaught (.writeError "connection reset") ∧
    ((uploadHandler bucketNameApp ⟨[], []⟩ "k" [104, 105] (some "connection reset")).2).isResponse
      = false :=
  ⟨rfl, rfl⟩

/-- C7 amended: when the backend put rejects, the resulting
StorageWriteError is not caught at the handler boundary (the handler has no
try/catch): the rejection escapes the handler instead of becoming a
server-error response, and the backend state is unchanged, so nothing is
stored under the generated key. -/
theorem upload_put_failure_rejection_escapes (bucket : String) (st : MinioState)
    (key : String) (body : Bytes) (e : String) :
    uploadHandler bucket st key body (some e) = (st, .uncaught (.writeError e)) := rfl

/-- Helper: the concatenation of the rendered items contains each member's
rendering as a contiguous segment. -/
theorem concatAll_decomp (f : String → String) (l : List String) (k : String)
    (hk : k ∈ l) : ∃ pre post, concatAll (l.map f) = pre ++ f k ++ post := by
  induction l with
  | nil => cases hk
  | cons a l ih =>
    rcases List.mem_cons.mp hk with rfl | hk2
    · refine ⟨"", concatAll (l.map f), ?_⟩
      rw [String.empty_append]
      rfl
    · obtain ⟨pre, post, hdec⟩ := ih hk2
      refine ⟨f a ++ pre, post, ?_⟩
      show f a ++ concatAll (l.map f) = (f a ++ pre) ++ f k ++ post
      rw [hdec]
      simp [String.append_assoc]

/-- C9: a complete run of the listing stream produces a 200 page on which
every object key of the bucket appears rendered as a link to
`/objects/{key}`; a run that errors mid-sequence produces a 500 server
error instead. -/
theorem list_route_renders_all_keys (st : MinioState) (key : String)
    (hk : key ∈ listObjects st bucketNameApp) :
    (∃ pre post, listHandler (.complete (listObjects st bucketNameApp))
        = .okText 200 (pre ++ renderListItem key ++ post)) ∧
    (∀ partItems err, listHandler (.errored partItems err)
        = .okText 500 "Something went wrong!") := by
  refine ⟨?_, fun _ _ => rfl⟩
  obtain ⟨pre, post, hdec⟩ := concatAll_decomp renderListItem _ key hk
  refine ⟨listPagePre ++ pre, post ++ listPagePost, ?_⟩
  show HResult.okText 200 (renderListing (listObjects st bucketNameApp)) = _
  unfold renderListing
  rw [hdec]
  simp [String.append_assoc]

/-- Closed instance of `list_route_renders_all_keys`: one stored object. -/
theorem list_route_renders_all_keys_witness :
    ∃ pre post,
      listHandler (.complete (listObjects ⟨["example-bucket"],
        [("example-bucket", "a", [1])]⟩ bucketNameApp))
        = .okText 200 (pre ++ renderListItem "a" ++ post) :=
  (list_route_renders_all_keys ⟨["example-bucket"], [("example-bucket", "a", [1])]⟩
    "a" (by decide)).1

set_option maxRecDepth 100000 in
theorem hex_byte_roundtrip : ∀ b : Nat, b < 256 →
    hexVal (hexDigit (b / 16)) * 16 + hexVal (hexDigit (b % 16)) = b := by decide

set_option maxRecDepth 100000 in
theorem hex_byte_no_dash : ∀ b : Nat, b < 256 → ∀ c ∈ byteHex b, (c != '-') = true := by
  decide

/-- Helper: the hex rendering of in-range bytes holds no dash. -/
theorem bytesHex_no_dash (bs : List Nat) (h : ∀ b ∈ bs, b < 256) :
    ∀ c ∈ bytesHex bs, (c != '-') = true := by
  induction bs with
  | nil => intro c hc; cases hc
  | cons b rest ih =>
    intro c hc
    rw [bytesHex] at hc
    rcases List.mem_append.mp hc with hc1 | hc2
    · exact hex_byte_no_dash b (h b (List.mem_cons_self b rest)) c hc1
    · exact ih (fun x hx => h x (List.mem_cons_of_mem _ hx)) c hc2

/-- Helper: decoding two hex characters per byte inverts the rendering. -/
theorem decode_bytesHex (bs : List Nat) (h : ∀ b ∈ bs, b < 256) :
    decodeHexPairs (bytesHex bs) = bs := by
  induction bs with
  | nil => rfl
  | cons b rest ih =>
    show decodeHexPairs (byteHex b ++ bytesHex rest) = b :: rest
    show (hexVal (hexDigit (b / 16)) * 16 + hexVal (hexDigit (b % 16)))
        :: decodeHexPairs (bytesHex rest) = b :: rest
    rw [hex_byte_roundtrip b (h b (List.mem_cons_self b rest)),
      ih (fun x hx => h x (List.mem_cons_of_mem _ hx))]

/-- Helper: masking keeps bytes in range. -/
theorem applyMask_bounds (r : List Nat) : ∀ (i : Nat), (∀ b ∈ r, b < 256) →
    ∀ b ∈ applyMask i r, b < 256 := by
  induction r with
  | nil => intro i h b hb; cases hb
  | cons a rest ih =>
    intro i h b hb
    simp only [applyMask, List.mem_cons] at hb
    rcases hb with rfl | hb2
    · have ha := h a (List.mem_cons_self a rest)
      unfold uuidMask
      split
      · omega
      · split
        · omega
        · exact ha
    · exact ih (i + 1) (fun x hx => h x (List.mem_cons_of_mem _ hx)) b hb2

/-- Helper: removing the inserted dashes recovers the hex characters. -/
theorem stripDashes_withDashes (cs : List Char) (h : ∀ c ∈ cs, (c != '-') = true) :
    stripDashes (withDashes cs) = cs := by
  have hdash : (('-' : Char) != '-') = false := by decide
  have htake : (cs.take 8).filter (fun c => c != '-') = cs.take 8 :=
    List.filter_eq_self.mpr (fun c hc => h c (List.take_subset 8 cs hc))
  have hpiece : ∀ l : List Char, l ⊆ cs → l.filter (fun c => c != '-') = l :=
    fun l hl => List.filter_eq_self.mpr (fun c hc => h c (hl hc))
  have hsub8 : cs.drop 8 ⊆ cs := List.drop_subset 8 cs
  have hsub12 : (cs.drop 8).drop 4 ⊆ cs := fun c hc => hsub8 (List.drop_subset 4 _ hc)
  have hsub16 : ((cs.drop 8).drop 4).drop 4 ⊆ cs :=
    fun c hc => hsub12 (List.drop_subset 4 _ hc)
  unfold stripDashes withDashes
  rw [List.filter_append, List.filter_cons, List.filter_append, List.filter_cons,
    List.filter_append, List.filter_cons, List.filter_append, List.filter_cons]
  rw [hdash]
  simp only [Bool.false_eq_true, if_false]
  rw [htake,
    hpiece _ (fun c hc => hsub8 (List.take_subset 4 _ hc)),
    hpiece _ (fun c hc => hsub12 (List.take_subset 4 _ hc)),
    hpiece _ (fun c hc => hsub16 (List.take_subset 4 _ hc)),
    hpiece _ (fun c hc => hsub16 (List.drop_subset 4 _ hc))]
  rw [List.take_append_drop 4 (((cs.drop 8).drop 4).drop 4),
    List.take_append_drop 4 ((cs.drop 8).drop 4),
    List.take_append_drop 4 (cs.drop 8),
    List.take_append_drop 8 cs]

/-- Helper: two random draws of in-range bytes render the same UUID string
exactly when they agree after version/variant masking, i.e. the key is
determined by the 122 unmasked bits. -/
theorem uuidString_eq_iff (r1 r2 : List Nat)
    (h1 : ∀ b ∈ r1, b < 256) (h2 : ∀ b ∈ r2, b < 256) :
    uuidString r1 = uuidString r2 ↔ uuidSetVersion r1 = uuidSetVersion r2 := by
  constructor
  · intro h
    have hdata : withDashes (bytesHex (uuidSetVersion r1))
        = withDashes (bytesHex (uuidSetVersion r2)) := congrArg String.data h
    have hb1 : ∀ b ∈ uuidSetVersion r1, b < 256 := applyMask_bounds r1 0 h1
    have hb2 : ∀ b ∈ uuidSetVersion r2, b < 256 := applyMask_bounds r2 0 h2
    have e1 := stripDashes_withDashes (bytesHex (uuidSetVersion r1)) (bytesHex_no_dash _ hb1)
    have e2 := stripDashes_withDashes (bytesHex (uuidSetVersion r2)) (bytesHex_no_dash _ hb2)
    have hhex : bytesHex (uuidSetVersion r1) = bytesHex (uuidSetVersion r2) := by
      rw [← e1, ← e2, hdata]
    calc uuidSetVersion r1
        = decodeHexPairs (bytesHex (uuidSetVersion r1)) := (decode_bytesHex _ hb1).symm
      _ = decodeHexPairs (bytesHex (uuidSetVersion r2)) := by rw [hhex]
      _ = uuidSetVersion r2 := decode_bytesHex _ hb2
  · intro h
    unfold uuidString
    rw [h]

set_option maxRecDepth 100000 in
/-- C8 counterexample: two distinct 16-byte random draws produce the same
upload key, so the generated key carries fewer than 128 random bits (the
version and variant bits of the UUID are fixed, leaving 122). -/
theorem uuid_collision_cex :
    uuidString [0, 0, 0, 0, 0, 0, 0, 0, 0, 0, 0, 0, 0, 0, 0, 0]
      = uuidString [0, 0, 0, 0, 0, 0, 64, 0, 128, 0, 0, 0, 0, 0, 0, 0] ∧
    ([0, 0, 0, 0, 0, 0, 0, 0, 0, 0, 0, 0, 0, 0, 0, 0] : List Nat)
      ≠ [0, 0, 0, 0, 0, 0, 64, 0, 128, 0, 0, 0, 0, 0, 0, 0] :=
  ⟨by decide, by decide⟩

/-- C8 amended: the upload key is `crypto.randomUUID()`, a version-4 UUID
determined by the 122 unmasked random bits of the draw (not 128): draws
that differ after masking give distinct keys.  The key depends only on the
draw, never on the request body, and two uploads with distinct keys each
store their own body under their own key, with no cross-contamination. -/
theorem upload_keys_fresh_and_isolated (st : MinioState) (bucket : String)
    (r1 r2 : List Nat) (b1 b2 : Bytes)
    (h1 : ∀ b ∈ r1, b < 256) (h2 : ∀ b ∈ r2, b < 256)
    (hne : uuidSetVersion r1 ≠ uuidSetVersion r2) :
    uuidString r1 ≠ uuidString r2 ∧
    (∀ body : Bytes, (uploadRandom bucket st r1 body).2
        = .okText 200 (uploadMsg (uuidString r1))) ∧
    getObject (uploadRandom bucket (uploadRandom bucket st r1 b1).1 r2 b2).1
        bucket (uuidString r2) = .ok b2 ∧
    getObject (uploadRandom bucket (uploadRandom bucket st r1 b1).1 r2 b2).1
        bucket (uuidString r1) = .ok b1 := by
  have hkey : uuidString r1 ≠ uuidString r2 :=
    fun he => hne ((uuidString_eq_iff r1 r2 h1 h2).mp he)
  have hbeq : (uuidString r2 == uuidString r1) = false :=
    beq_eq_false_iff_ne.mpr (Ne.symm hkey)
  refine ⟨hkey, fun _ => rfl, ?_, ?_⟩
  · simp [uploadRandom, uploadHandler, putObject, getObject, List.find?]
  · simp [uploadRandom, uploadHandler, putObject, getObject, List.find?, hbeq]

/-- Closed instance of `upload_keys_fresh_and_isolated`: draws differing in
an unmasked byte give distinct keys. -/
theorem upload_keys_fresh_and_isolated_witness :
    uuidString [0, 0, 0, 0, 0, 0, 0, 0, 0, 0, 0, 0, 0, 0, 0, 0]
      ≠ uuidString [1, 0, 0, 0, 0, 0, 0, 0, 0, 0, 0, 0, 0, 0, 0, 0] :=
  (upload_keys_fresh_and_isolated ⟨[], []⟩ "example-bucket"
    [0, 0, 0, 0, 0, 0, 0, 0, 0, 0, 0, 0, 0, 0, 0, 0]
    [1, 0, 0, 0, 0, 0, 0, 0, 0, 0, 0, 0, 0, 0, 0, 0]
    [1] [2] (by decide) (by decide) (by decide)).1

end ExpressMinio
